import Mathlib

/-!
Shallow embedding of the KC868-A16 MicroPython web-server firmware
(`main.py`): the PCF8574 register-mirror class, the relay/input registry,
the control and state HTTP handlers, and the key-scan edge-detection loop.

Bus transactions are modelled by explicit outcome parameters: a read
outcome is `Option Nat` (`none` = the `i2c.readfrom` call raised `OSError`,
`some b` = it returned the byte `b`), a write outcome is `Bool`
(`false` = `i2c.writeto` raised `OSError`).  Python's arbitrary-precision
integers carrying 8-bit register values are modelled as `Nat` with the
same bitwise operators.
-/

namespace KC868

/-- Mirror of `class PCF8574`: bus address, cached register byte
(`self.value`), and validity flag (`self.is_valid`). -/
structure PCF8574 where
  address : Nat
  value : Nat
  is_valid : Bool
deriving Repr, DecidableEq

namespace PCF8574

/-- `PCF8574.__init__`: the cache starts at `0xFF` and `is_valid` is set
from whether the construction-time `i2c.scan()` probe raised `OSError`
(`scan_ok = false` models the raise). -/
def mk_init (i2c_address : Nat) (scan_ok : Bool) : PCF8574 :=
  { address := i2c_address, value := 0xFF, is_valid := scan_ok }

/-- `PCF8574.read_all`: returns `None` on an invalid device; otherwise a
successful 1-byte bus read overwrites the cache and is returned, and a
failed read returns `None` leaving the cache untouched. -/
def read_all (d : PCF8574) (bus : Option Nat) : Option Nat × PCF8574 :=
  if d.is_valid = false then (none, d)
  else
    match bus with
    | some b => (some b, { d with value := b })
    | none => (none, d)

/-- `PCF8574.read_pin`: `False` on an invalid device; otherwise calls
`read_all` and, on success, returns `not bool(self.value & (1 << pin))`
on the freshly cached byte, and `False` on failure. -/
def read_pin (d : PCF8574) (bus : Option Nat) (pin_number : Nat) :
    Bool × PCF8574 :=
  if d.is_valid = false then (false, d)
  else
    match d.read_all bus with
    | (some _, d') => (decide (d'.value &&& (1 <<< pin_number) = 0), d')
    | (none, d') => (false, d')

/-- Python `v & ~(1 << n)` on a non-negative int: clear bit `n`.  Written
as subtraction of the masked bit so the kernel can evaluate it; the lemma
`clear_bit_eq_ldiff` below certifies it equals the bitwise and-not. -/
def clear_bit (v n : Nat) : Nat := v - (v &&& (1 <<< n))

/-- `PCF8574.write_all`: no-op on an invalid device; a successful 1-byte
bus write sets the cache to the written byte; a failure only logs and
leaves the cache untouched. -/
def write_all (d : PCF8574) (bus_ok : Bool) (v : Nat) : PCF8574 :=
  if d.is_valid = false then d
  else if bus_ok then { d with value := v }
  else d

/-- `PCF8574.write_pin`: no-op on an invalid device; otherwise mutates the
cached byte in place (`self.value &= ~(1 << n)` / `self.value |= (1 << n)`)
and then calls `write_all(self.value)` with that already-updated byte. -/
def write_pin (d : PCF8574) (bus_ok : Bool) (pin_number : Nat)
    (state : Bool) : PCF8574 :=
  if d.is_valid = false then d
  else
    let v := if state = false then clear_bit d.value pin_number
             else d.value ||| (1 <<< pin_number)
    let d' := { d with value := v }
    d'.write_all bus_ok v

end PCF8574

/-- Fixed bus addresses of the four expanders. -/
def ADDR_INPUTS_1_8 : Nat := 0x22

def ADDR_INPUTS_9_16 : Nat := 0x21

def ADDR_OUTPUTS_1_8 : Nat := 0x24

def ADDR_OUTPUTS_9_16 : Nat := 0x25

/-- Which of the two output expanders a relay lives on
(`pcf_outputs_1_8` / `pcf_outputs_9_16`). -/
inductive OutDev where
  | o18
  | o916
deriving Repr, DecidableEq

/-- Which of the two input expanders (`pcf_inputs_1_8` / `pcf_inputs_9_16`). -/
inductive InDev where
  | i18
  | i916
deriving Repr, DecidableEq

/-- The bus address each input expander was constructed with. -/
def InDev.addr : InDev → Nat
  | .i18 => ADDR_INPUTS_1_8
  | .i916 => ADDR_INPUTS_9_16

/-- The four global device mirrors. -/
structure SysState where
  in1 : PCF8574
  in2 : PCF8574
  out1 : PCF8574
  out2 : PCF8574
deriving Repr, DecidableEq

def SysState.outDev (s : SysState) : OutDev → PCF8574
  | .o18 => s.out1
  | .o916 => s.out2

def SysState.setOut (s : SysState) : OutDev → PCF8574 → SysState
  | .o18, d => { s with out1 := d }
  | .o916, d => { s with out2 := d }

def SysState.inDev (s : SysState) : InDev → PCF8574
  | .i18 => s.in1
  | .i916 => s.in2

def SysState.setIn (s : SysState) : InDev → PCF8574 → SysState
  | .i18, d => { s with in1 := d }
  | .i916, d => { s with in2 := d }

/-- `outputs_map` as the insertion-ordered association list of the Python
dict: `str(i+1) -> (pcf_outputs_1_8, i)` for `i in range(8)`, then
`str(i+9) -> (pcf_outputs_9_16, i)`. -/
def outputs_map_list : List (String × OutDev × Nat) :=
  ((List.range 8).map fun i => (toString (i + 1), (OutDev.o18, i))) ++
    ((List.range 8).map fun i => (toString (i + 9), (OutDev.o916, i)))

/-- Dict lookup in `outputs_map`. -/
def outputs_map (relay_id : String) : Option (OutDev × Nat) :=
  (outputs_map_list.find? fun e => e.1 == relay_id).map fun e => e.2

/-- `input_to_output_map`: for each input expander address, bit index
`i in range(8)` maps to relay identifier `str(i+1)` resp. `str(i+9)`. -/
def input_to_output_map (addr i : Nat) : Option String :=
  if addr = ADDR_INPUTS_1_8 then
    if i < 8 then some (toString (i + 1)) else none
  else if addr = ADDR_INPUTS_9_16 then
    if i < 8 then some (toString (i + 9)) else none
  else none

/-- Association-list lookup (Python dict access / `.get`). -/
def lookup {α : Type} (l : List (String × α)) (k : String) : Option α :=
  (l.find? fun e => e.1 == k).map fun e => e.2

/-- The relay half of `api_state_handler`: for every `relay_id, (pcf, pin)`
in `outputs_map`, `state = not bool(pcf.value & (1 << pin))` and the
reported string is `"off" if state else "on"` (the deliberately reversed
display of `main.py` line 358). -/
def relays_state (s : SysState) : List (String × String) :=
  outputs_map_list.map fun e =>
    (e.1,
      if decide ((s.outDev e.2.1).value &&& (1 <<< e.2.2) = 0)
      then "off" else "on")

/-- `f"X{n:02d}"` for the input key names. -/
def xname (n : Nat) : String :=
  "X" ++ (if n < 10 then "0" ++ toString n else toString n)

/-- The `for i in range(8)` loop of `api_state_handler` over one input
expander: key `X{key_base+i:02d}` is set to `read_pin(i)`, each call
performing its own fresh bus read (`bus i`), threading the device cache. -/
def read_pins (d : PCF8574) (bus : Nat → Option Nat) (key_base : Nat) :
    List (String × Bool) × PCF8574 :=
  (List.range 8).foldl
    (fun acc i =>
      let r := acc.2.read_pin (bus i) i
      (acc.1 ++ [(xname (key_base + i), r.1)], r.2))
    ([], d)

/-- The input half of `api_state_handler`: the three discrete sensors
(reported as `not sensor.value()`), then — only when the corresponding
expander `is_valid` — `X01..X08` from `pcf_inputs_1_8` and `X09..X16`
from `pcf_inputs_9_16`. -/
def inputs_states (s : SysState) (ht1 ht2 ht3 : Bool)
    (bus1 bus2 : Nat → Option Nat) : List (String × Bool) × SysState :=
  let base := [("HT1", !ht1), ("HT2", !ht2), ("HT3", !ht3)]
  let p1 :=
    if s.in1.is_valid then
      let r := read_pins s.in1 bus1 1
      (r.1, { s with in1 := r.2 })
    else ([], s)
  let p2 :=
    if p1.2.in2.is_valid then
      let r := read_pins p1.2.in2 bus2 9
      (r.1, { p1.2 with in2 := r.2 })
    else ([], p1.2)
  (base ++ p1.1 ++ p2.1, p2.2)

/-- `api_state_handler`: the JSON body is the pair of the `"relays"` and
`"inputs"` maps; input reads mutate the input-device caches. -/
def api_state_handler (s : SysState) (ht1 ht2 ht3 : Bool)
    (bus1 bus2 : Nat → Option Nat) :
    (List (String × String) × List (String × Bool)) × SysState :=
  let inp := inputs_states s ht1 ht2 ht3 bus1 bus2
  ((relays_state inp.2, inp.1), inp.2)

/-- Outcome of the control branch of `index_handler`: the code answers
`200 OK` with body `"OK"` unless an exception escapes (then `500`). -/
inductive ControlResult where
  | ok
  | server_error
deriving Repr, DecidableEq

/-- One `pcf.write_pin(pin, state_value)` on the system state. -/
def write_relay (s : SysState) (dev : OutDev) (pin : Nat) (bus_ok : Bool)
    (st : Bool) : SysState :=
  s.setOut dev ((s.outDev dev).write_pin bus_ok pin st)

/-- `relay_id in outputs_map` (Python membership; `None in dict` is false). -/
def relay_in_map (relay_id : Option String) : Bool :=
  match relay_id with
  | some rid => (outputs_map rid).isSome
  | none => false

/-- The control branch of `index_handler`, at the decoded-parameter level
(`relay_id = params.get("relay")`, `state = params.get("state")`).  The
`"all"` branch iterates `outputs_map` in insertion order writing every
relay; the single-relay branch writes one bit; any other combination
falls through both conditionals and still answers `200 OK`.  `bus_w k`
is the outcome of the `k`-th bus write issued. -/
def index_handler_control (s : SysState) (relay_id state : Option String)
    (bus_w : Nat → Bool) : SysState × ControlResult :=
  if relay_id == some "all" && (state == some "on" || state == some "off") then
    (outputs_map_list.enum.foldl
      (fun acc e => write_relay acc e.2.2.1 e.2.2.2 (bus_w e.1)
        (state == some "on"))
      s, ControlResult.ok)
  else if relay_in_map relay_id &&
      (state == some "on" || state == some "off") then
    (match relay_id.bind outputs_map with
     | some (dev, pin) =>
        write_relay s dev pin (bus_w 0) (state == some "on")
     | none => s, ControlResult.ok)
  else (s, ControlResult.ok)

/-- One fired `write_pin` inside `scan_keys`: which relay and the value
written. -/
structure ScanEvent where
  relay_id : String
  new_state : Bool
deriving Repr, DecidableEq

/-- The body of `scan_keys` for one input expander and one tick: skip an
invalid device; `read_all()` (mutating the cache), skip on failure; else
diff against the previous snapshot and, for every bit that changed and is
now 0, resolve the relay, read its logical state from the output cache
(`not bool(value & mask)`), negate it, and `write_pin` that value.
Returns the new system state, the new previous-snapshot byte, and the
list of fired writes. -/
def scan_device_step (s : SysState) (d : InDev) (prev : Nat)
    (bus_read : Option Nat) (bus_w : Nat → Bool) :
    SysState × Nat × List ScanEvent :=
  if (s.inDev d).is_valid = false then (s, prev, [])
  else
    let r := (s.inDev d).read_all bus_read
    let s1 := s.setIn d r.2
    match r.1 with
    | none => (s1, prev, [])
    | some current =>
      let diff := prev ^^^ current
      let res := (List.range 8).foldl
        (fun (acc : SysState × List ScanEvent) i =>
          if diff &&& (1 <<< i) ≠ 0 then
            if current &&& (1 <<< i) = 0 then
              match input_to_output_map d.addr i with
              | some rid =>
                match outputs_map rid with
                | some (dev, pin) =>
                  let pcf_out := acc.1.outDev dev
                  let cur_relay := decide (pcf_out.value &&& (1 <<< pin) = 0)
                  let new_relay := !cur_relay
                  (acc.1.setOut dev (pcf_out.write_pin (bus_w i) pin new_relay),
                   acc.2 ++ [⟨rid, new_relay⟩])
                | none => acc
              | none => acc
            else acc
          else acc)
        (s1, [])
      (res.1, current, res.2)

/-! ## Basic lemmas about the device operations -/

lemma ldiff_zero_right (v : Nat) : Nat.ldiff v 0 = v := by
  apply Nat.eq_of_testBit_eq
  intro k
  simp [Nat.testBit_ldiff]

lemma ldiff_zero_left (m : Nat) : Nat.ldiff 0 m = 0 := by
  apply Nat.eq_of_testBit_eq
  intro k
  simp [Nat.testBit_ldiff]

/-- `clear_bit` is the bitwise and-not of Python's `v & ~(1 << n)`. -/
lemma clear_bit_eq_ldiff (v n : Nat) :
    PCF8574.clear_bit v n = Nat.ldiff v (1 <<< n) := by
  show v - (v &&& (1 <<< n)) = Nat.ldiff v (1 <<< n)
  rw [Nat.shiftLeft_eq, one_mul]
  induction v using Nat.binaryRec generalizing n with
  | z => simp [ldiff_zero_left]
  | f b m ih =>
    cases n with
    | zero =>
      have h1 : (2 : Nat) ^ 0 = Nat.bit true 0 := by simp [Nat.bit_val]
      rw [h1, Nat.land_bit, Nat.ldiff_bit]
      simp [Nat.bit_val, ldiff_zero_right]
    | succ k =>
      have h1 : (2 : Nat) ^ (k + 1) = Nat.bit false (2 ^ k) := by
        simp [Nat.bit_val, Nat.pow_succ, Nat.mul_comm]
      rw [h1, Nat.land_bit, Nat.ldiff_bit]
      have h2 := ih k
      have h3 : m &&& 2 ^ k ≤ m := Nat.and_le_left
      simp [Nat.bit_val]
      omega

/-- Bit `m` of `clear_bit v n`. -/
lemma clear_bit_testBit (v n m : Nat) :
    (PCF8574.clear_bit v n).testBit m = (v.testBit m && !(decide (n = m))) := by
  rw [clear_bit_eq_ldiff, Nat.testBit_ldiff, Nat.shiftLeft_eq, one_mul,
    Nat.testBit_two_pow]

/-- The bridge between the code's bit test `v & (1 << n) == 0` and
`Nat.testBit`. -/
lemma and_mask_eq_zero_iff (v n : Nat) :
    (v &&& (1 <<< n) = 0) ↔ v.testBit n = false := by
  rw [Nat.shiftLeft_eq, one_mul, Nat.and_two_pow]
  rcases h : v.testBit n <;>
    simp [h, Nat.ne_zero_iff_zero_lt.mpr (Nat.two_pow_pos n)]

/-- On a valid device, `write_pin` sets the cache to the recomputed byte
whether or not the bus write succeeds: the mutation happens before the
bus transaction, and a successful `write_all` rewrites the same byte. -/
lemma write_pin_valid (d : PCF8574) (bus_ok : Bool) (n : Nat) (st : Bool)
    (h : d.is_valid = true) :
    d.write_pin bus_ok n st =
      { d with value :=
          if st = false then PCF8574.clear_bit d.value n
          else d.value ||| (1 <<< n) } := by
  unfold PCF8574.write_pin PCF8574.write_all
  rcases bus_ok <;> simp [h]

/-- The registry list determines the identifier from the (device, bit)
pair. -/
lemma outputs_map_list_inj : ∀ p ∈ outputs_map_list, ∀ q ∈ outputs_map_list,
    p.2 = q.2 → p.1 = q.1 := by decide

/-- Looking a relay up in the rendered relay map: the reported string is
`"on"` exactly when the cached bit is 1 (the code renders `"off"` when
`value & (1 << pin)` is zero). -/
lemma relays_state_lookup (s : SysState) (r : String) (dev : OutDev)
    (pin : Nat) (h : outputs_map r = some (dev, pin)) :
    lookup (relays_state s) r =
      some (if (s.outDev dev).value.testBit pin then "on" else "off") := by
  unfold lookup relays_state
  rw [List.find?_map]
  unfold outputs_map at h
  rcases hf : outputs_map_list.find? (fun e => e.1 == r) with _ | x <;>
    rw [hf] at h <;> simp at h
  have hc : (fun (e : String × String) => e.1 == r) ∘
      (fun (e : String × OutDev × Nat) =>
        (e.1, if decide ((s.outDev e.2.1).value &&& (1 <<< e.2.2) = 0)
              then "off" else "on")) = fun e => e.1 == r := rfl
  rw [hc, hf]
  simp [h]
  rcases hb : (s.outDev dev).value.testBit pin with _ | _
  · simp [(and_mask_eq_zero_iff _ _).mpr hb]
  · have hnz : ¬((s.outDev dev).value &&& 1 <<< pin = 0) := fun hz => by
      simpa [hb] using (and_mask_eq_zero_iff _ _).mp hz
    simp [hnz]

/-- A system state with every device fresh and valid. -/
def demo_all_valid : SysState :=
  { in1 := PCF8574.mk_init ADDR_INPUTS_1_8 true
    in2 := PCF8574.mk_init ADDR_INPUTS_9_16 true
    out1 := PCF8574.mk_init ADDR_OUTPUTS_1_8 true
    out2 := PCF8574.mk_init ADDR_OUTPUTS_9_16 true }

/-- A system state whose first output expander has cached byte `0xFE`,
i.e. relay 1's output bit is 0. -/
def demo_out1_fe : SysState :=
  { in1 := PCF8574.mk_init ADDR_INPUTS_1_8 true
    in2 := PCF8574.mk_init ADDR_INPUTS_9_16 true
    out1 := { address := ADDR_OUTPUTS_1_8, value := 0xFE, is_valid := true }
    out2 := PCF8574.mk_init ADDR_OUTPUTS_9_16 true }

/-- The `__main__` startup sequence: construct the four devices (with the
construction probes succeeding per `p1..p4`), then write `0xFF` to each
output expander that is valid (`b1`, `b2` the outcomes of those two bus
writes). -/
def startup_state (p1 p2 p3 p4 b1 b2 : Bool) : SysState :=
  let in1 := PCF8574.mk_init ADDR_INPUTS_1_8 p1
  let in2 := PCF8574.mk_init ADDR_INPUTS_9_16 p2
  let out1 := PCF8574.mk_init ADDR_OUTPUTS_1_8 p3
  let out2 := PCF8574.mk_init ADDR_OUTPUTS_9_16 p4
  { in1 := in1, in2 := in2,
    out1 := if out1.is_valid then out1.write_all b1 0xFF else out1,
    out2 := if out2.is_valid then out2.write_all b2 0xFF else out2 }

/-! ## Claim theorems -/

/-- C6: `read_pin n` on a register-mirror device returns `false` when the
device is invalid or the underlying `read_all` fails, and otherwise
returns the active-low interpretation of the freshly read register byte:
`true` exactly when bit `n` of that byte is 0. -/
theorem c6_read_pin_active_low (d : PCF8574) (bus : Option Nat) (n : Nat) :
    (d.read_pin bus n).1 = true ↔
      d.is_valid = true ∧ ∃ b, bus = some b ∧ b.testBit n = false := by
  unfold PCF8574.read_pin PCF8574.read_all
  rcases h : d.is_valid <;> rcases bus with _ | b <;>
    simp [h, and_mask_eq_zero_iff]

/-- C7: the registry maps the sixteen relay identifiers injectively to
(device, bit) pairs, and for every bit `i < 8` the input-to-relay map is
the exact inverse: input device `0x22` bit `i` yields relay `i+1`, which
resolves back to output device `pcf_outputs_1_8` bit `i`, and input
device `0x21` bit `i` yields relay `i+9`, resolving to
`pcf_outputs_9_16` bit `i`. -/
theorem c7_registry_bijection :
    (∀ r1 r2 e1 e2, outputs_map r1 = some e1 → outputs_map r2 = some e2 →
      e1 = e2 → r1 = r2) ∧
    (∀ i, i < 8 →
      input_to_output_map ADDR_INPUTS_1_8 i = some (toString (i + 1)) ∧
      (input_to_output_map ADDR_INPUTS_1_8 i).bind outputs_map
          = some (OutDev.o18, i) ∧
      input_to_output_map ADDR_INPUTS_9_16 i = some (toString (i + 9)) ∧
      (input_to_output_map ADDR_INPUTS_9_16 i).bind outputs_map
          = some (OutDev.o916, i)) := by
  constructor
  · intro r1 r2 e1 e2 h1 h2 he
    unfold outputs_map at h1 h2
    rcases hf1 : outputs_map_list.find? (fun e => e.1 == r1) with _ | x1 <;>
      rw [hf1] at h1 <;> simp at h1
    rcases hf2 : outputs_map_list.find? (fun e => e.1 == r2) with _ | x2 <;>
      rw [hf2] at h2 <;> simp at h2
    have m1 := List.mem_of_find?_eq_some hf1
    have m2 := List.mem_of_find?_eq_some hf2
    have p1 := List.find?_some hf1
    have p2 := List.find?_some hf2
    simp at p1 p2
    have hx := outputs_map_list_inj x1 m1 x2 m2 (by rw [h1, h2]; exact he)
    rw [← p1, ← p2, hx]
  · decide

/-- C1 counterexample: with relay 1's cached output bit equal to 0
(cache byte `0xFE`), the state-query handler reports relay `"1"` as
`"off"`, not `"on"` as the claim's inverted active-low convention
demands. -/
theorem c1_counterexample :
    (demo_out1_fe.out1.value &&& (1 <<< 0) = 0) ∧
      lookup (relays_state demo_out1_fe) "1" = some "off" := by decide

/-- C1 amended: for every relay identifier, the state-query handler
recomputes the reported string from the current cached bit of that
relay's output device, but with the display deliberately reversed
relative to the active-low drive convention: it reports `"on"` exactly
when the cached bit is 1 and `"off"` exactly when it is 0. -/
theorem c1_render_reports_cached_bit (s : SysState) (r : String)
    (dev : OutDev) (pin : Nat) (h : outputs_map r = some (dev, pin)) :
    lookup (relays_state s) r =
      some (if (s.outDev dev).value.testBit pin then "on" else "off") :=
  relays_state_lookup s r dev pin h

/-- C1 witness: the amended theorem applied to relay `"1"` on the
concrete state whose first output cache is `0xFE`. -/
theorem c1_witness :
    outputs_map "1" = some (OutDev.o18, 0) ∧
      lookup (relays_state demo_out1_fe) "1" =
        some (if (demo_out1_fe.outDev OutDev.o18).value.testBit 0
              then "on" else "off") :=
  ⟨by decide,
    c1_render_reports_cached_bit demo_out1_fe "1" OutDev.o18 0 (by decide)⟩

/-- C2 counterexample: a `write_pin` whose bus write fails (`bus_ok =
false`) still changes the cached byte from `0xFF` to `0xFE`, so the cache
no longer equals the value established by the last successful
full-register transaction. -/
theorem c2_counterexample :
    (PCF8574.write_pin
        { address := ADDR_OUTPUTS_1_8, value := 0xFF, is_valid := true }
        false 0 false).value = 0xFE ∧ (0xFE : Nat) ≠ 0xFF := by decide

/-- C2 amended: a failed `read_all` returns `None` and leaves the cache
unchanged, and a failed `write_all` leaves the cache unchanged (the
error is only logged, non-fatally); but `write_pin` commits the
recomputed byte to the cache *before* the bus transaction, so after a
failed `write_pin` the cache holds the intended new byte rather than the
value of the last successful full-register read or write. -/
theorem c2_cache_discipline :
    (∀ d : PCF8574, d.read_all none = (none, d)) ∧
    (∀ (d : PCF8574) (v : Nat), d.write_all false v = d) ∧
    (∀ (d : PCF8574) (bus_ok : Bool) (n : Nat) (st : Bool),
      d.is_valid = true →
        (d.write_pin bus_ok n st).value =
          (if st = false then PCF8574.clear_bit d.value n
           else d.value ||| (1 <<< n))) := by
  refine ⟨?_, ?_, ?_⟩
  · intro d
    unfold PCF8574.read_all
    rcases h : d.is_valid <;> simp [h]
  · intro d v
    unfold PCF8574.write_all
    rcases h : d.is_valid <;> simp [h]
  · intro d bus_ok n st h
    rw [write_pin_valid d bus_ok n st h]

/-- C3 counterexample: the control request `relay=17&state=on` does not
fail — it leaves the whole system state unchanged and still answers
`200 OK` (`"OK"`), with no `UnknownRelay` failure surfaced. -/
theorem c3_counterexample :
    index_handler_control demo_all_valid (some "17") (some "on")
        (fun _ => true) = (demo_all_valid, ControlResult.ok) ∧
      ControlResult.ok ≠ ControlResult.server_error := by decide

/-- C3 amended: a control request naming a relay identifier outside
`"1".."16"` that is not `"all"` leaves every device's state (every
cached byte) unchanged, but is silently ignored: the handler falls
through both write branches and reports success (`200 OK`), surfacing no
`UnknownRelay` failure. -/
theorem c3_unknown_relay_silent_noop (s : SysState) (rid : String)
    (st : Option String) (bus_w : Nat → Bool) (h1 : rid ≠ "all")
    (h2 : outputs_map rid = none) :
    index_handler_control s (some rid) st bus_w = (s, ControlResult.ok) := by
  unfold index_handler_control relay_in_map
  simp [h1, h2]

/-- C3 witness: the amended theorem applied to relay `"17"`. -/
theorem c3_witness :
    ("17" : String) ≠ "all" ∧ outputs_map "17" = none ∧
      index_handler_control demo_all_valid (some "17") (some "on")
          (fun _ => true) = (demo_all_valid, ControlResult.ok) :=
  ⟨by decide, by decide,
    c3_unknown_relay_silent_noop demo_all_valid "17" (some "on")
      (fun _ => true) (by decide) (by decide)⟩

/-- C9 counterexample: a device that was valid at construction and then
fails a bus transaction (a failed `read_all` and a failed `write_all`)
keeps its validity flag `true` — the flag is never cleared after
construction, contrary to the claim. -/
theorem c9_counterexample :
    ((PCF8574.mk_init ADDR_OUTPUTS_1_8 true).read_all none).2.is_valid
        = true ∧
      ((PCF8574.mk_init ADDR_OUTPUTS_1_8 true).write_all false 0x00).is_valid
        = true := by decide

/-- C9 amended: the validity flag is set `false` only by a failed
construction-time probe; later failed transactions leave it unchanged.
Every `read_pin` on an invalid device returns `false` and every
`write_pin` on it is a no-op, neither raising; and a relay write only
touches its own output device, leaving the other three mirrors
untouched. -/
theorem c9_invalid_device_safety :
    (∀ a : Nat, (PCF8574.mk_init a false).is_valid = false) ∧
    (∀ (d : PCF8574) (bus : Option Nat),
      ((d.read_all bus).2).is_valid = d.is_valid) ∧
    (∀ (d : PCF8574) (ok : Bool) (v : Nat),
      (d.write_all ok v).is_valid = d.is_valid) ∧
    (∀ (d : PCF8574) (bus : Option Nat) (n : Nat),
      d.is_valid = false → d.read_pin bus n = (false, d)) ∧
    (∀ (d : PCF8574) (ok : Bool) (n : Nat) (st : Bool),
      d.is_valid = false → d.write_pin ok n st = d) ∧
    (∀ (s : SysState) (dev : OutDev) (pin : Nat) (ok st : Bool),
      (write_relay s dev pin ok st).in1 = s.in1 ∧
      (write_relay s dev pin ok st).in2 = s.in2 ∧
      (dev = OutDev.o18 → (write_relay s dev pin ok st).out2 = s.out2) ∧
      (dev = OutDev.o916 → (write_relay s dev pin ok st).out1 = s.out1)) := by
  refine ⟨fun a => rfl, ?_, ?_, ?_, ?_, ?_⟩
  · intro d bus
    unfold PCF8574.read_all
    rcases h : d.is_valid <;> rcases bus <;> simp [h]
  · intro d ok v
    unfold PCF8574.write_all
    rcases h : d.is_valid <;> rcases ok <;> simp [h]
  · intro d bus n h
    unfold PCF8574.read_pin
    simp [h]
  · intro d ok n st h
    unfold PCF8574.write_pin
    simp [h]
  · intro s dev pin ok st
    rcases dev <;> simp [write_relay, SysState.setOut, SysState.outDev]

/-- C10: the constructor initialises every cache to `0xFF`, and after the
entry point's startup (construct all four devices, then write `0xFF` to
each valid output expander — preserving `0xFF` whether the write
succeeds, fails, or is skipped on an invalid device), a state query
reports every relay `"1".."16"` as `"on"`. -/
theorem c10_startup_reports_all_on :
    (∀ (a : Nat) (p : Bool), (PCF8574.mk_init a p).value = 0xFF) ∧
    (∀ p1 p2 p3 p4 b1 b2 : Bool,
      relays_state (startup_state p1 p2 p3 p4 b1 b2) =
        [("1", "on"), ("2", "on"), ("3", "on"), ("4", "on"), ("5", "on"),
         ("6", "on"), ("7", "on"), ("8", "on"), ("9", "on"), ("10", "on"),
         ("11", "on"), ("12", "on"), ("13", "on"), ("14", "on"),
         ("15", "on"), ("16", "on")]) := by
  refine ⟨fun a p => rfl, ?_⟩
  intro p1 p2 p3 p4 b1 b2
  rcases p1 <;> rcases p2 <;> rcases p3 <;> rcases p4 <;> rcases b1 <;>
    rcases b2 <;> decide

/-- `List.range 8` as a literal, for unrolling the per-device pin loops. -/
lemma range8 : List.range 8 = [0, 1, 2, 3, 4, 5, 6, 7] := by decide

/-- The keys produced by one pass of the input-pin loop depend only on
the key base, not on the device or the bus outcomes. -/
lemma read_pins_keys (d : PCF8574) (bus : Nat → Option Nat) (base : Nat) :
    ((read_pins d bus base).1).map Prod.fst =
      [xname (base + 0), xname (base + 1), xname (base + 2),
       xname (base + 3), xname (base + 4), xname (base + 5),
       xname (base + 6), xname (base + 7)] := by
  unfold read_pins
  rw [range8]
  simp

/-- A system state whose first input expander failed its construction
probe. -/
def demo_in1_invalid : SysState :=
  { in1 := PCF8574.mk_init ADDR_INPUTS_1_8 false
    in2 := PCF8574.mk_init ADDR_INPUTS_9_16 true
    out1 := PCF8574.mk_init ADDR_OUTPUTS_1_8 true
    out2 := PCF8574.mk_init ADDR_OUTPUTS_9_16 true }

/-- C8 counterexample: when the first input expander is invalid, the
`"inputs"` map omits the keys `X01..X08` entirely, so the response does
not have boolean entries for exactly `HT1..HT3` and `X01..X16` in every
reachable state, contrary to the claim. -/
theorem c8_counterexample :
    ((inputs_states demo_in1_invalid false false false
        (fun _ => some 0xFF) (fun _ => some 0xFF)).1).map Prod.fst =
      ["HT1", "HT2", "HT3", "X09", "X10", "X11", "X12", "X13", "X14",
       "X15", "X16"] ∧
    "X01" ∉ ((inputs_states demo_in1_invalid false false false
        (fun _ => some 0xFF) (fun _ => some 0xFF)).1).map Prod.fst := by
  decide

/-- C8 amended: every state-query response has a `"relays"` map with
entries for exactly the ids `"1".."16"` in order, each valued `"on"` or
`"off"`, and an `"inputs"` map whose keys are exactly `HT1, HT2, HT3`,
followed by `X01..X08` if (and only if) the first input expander is
valid and by `X09..X16` if the second is — the expander blocks are
omitted wholesale for an invalid device.  Key names and casing are
exact. -/
theorem c8_response_shape (s : SysState) (ht1 ht2 ht3 : Bool)
    (bus1 bus2 : Nat → Option Nat) :
    ((relays_state s).map Prod.fst =
      ["1", "2", "3", "4", "5", "6", "7", "8", "9", "10", "11", "12",
       "13", "14", "15", "16"]) ∧
    (∀ e ∈ relays_state s, e.2 = "on" ∨ e.2 = "off") ∧
    (((inputs_states s ht1 ht2 ht3 bus1 bus2).1).map Prod.fst =
      ["HT1", "HT2", "HT3"] ++
        (if s.in1.is_valid then
          ["X01", "X02", "X03", "X04", "X05", "X06", "X07", "X08"]
         else []) ++
        (if s.in2.is_valid then
          ["X09", "X10", "X11", "X12", "X13", "X14", "X15", "X16"]
         else [])) := by
  refine ⟨?_, ?_, ?_⟩
  · have hm : (relays_state s).map Prod.fst
        = outputs_map_list.map Prod.fst := by
      unfold relays_state
      rw [List.map_map]
      rfl
    rw [hm]
    decide
  · intro e he
    unfold relays_state at he
    rw [List.mem_map] at he
    obtain ⟨x, hx, rfl⟩ := he
    by_cases hz : (s.outDev x.2.1).value &&& (1 <<< x.2.2) = 0 <;>
      simp [hz]
  · unfold inputs_states
    rcases h1 : s.in1.is_valid <;> rcases h2 : s.in2.is_valid <;>
      simp [h1, h2, read_pins_keys] <;> decide

/-- A relay lookup that succeeds comes from an entry of the registry
list. -/
lemma outputs_map_mem {r : String} {e : OutDev × Nat}
    (h : outputs_map r = some e) : (r, e) ∈ outputs_map_list := by
  unfold outputs_map at h
  rcases hf : outputs_map_list.find? (fun x => x.1 == r) with _ | x <;>
    rw [hf] at h <;> simp at h
  have m := List.mem_of_find?_eq_some hf
  have p := List.find?_some hf
  simp at p
  rw [← p, ← h]
  simpa using m

/-- Setting relay `"3"` on: the control write turns bit 2 of the first
output expander's cache to 1, and the state query then reports `"3"` as
`"on"` (regardless of whether the bus write itself succeeded, since the
cache is written first). -/
lemma apply_control_three_on (s : SysState) (bus_w : Nat → Bool)
    (h : s.out1.is_valid = true) :
    lookup (relays_state
        (index_handler_control s (some "3") (some "on") bus_w).1) "3"
      = some "on" := by
  have hom3 : outputs_map "3" = some (OutDev.o18, 2) := by decide
  have hb1 : ((some "3" : Option String) == some "all") = false := by decide
  have hb2 : ((some "on" : Option String) == some "on") = true := by decide
  have hmap : relay_in_map (some "3") = true := by decide
  unfold index_handler_control
  simp [hb1, hb2, hmap, hom3]
  rw [relays_state_lookup _ "3" OutDev.o18 2 hom3]
  have ht4 : Nat.testBit 4 2 = true := by decide
  simp [write_relay, SysState.setOut, SysState.outDev,
    write_pin_valid _ _ _ _ h, Nat.testBit_or, ht4]

/-- Setting all relays on: the `"all"` branch iterates the sixteen
registry entries, setting every bit of both output caches, after which
the state query reports every valid relay id as `"on"`. -/
lemma apply_control_all_on (s : SysState) (bus_w : Nat → Bool)
    (h1 : s.out1.is_valid = true) (h2 : s.out2.is_valid = true) :
    ∀ (r : String) (e : OutDev × Nat), outputs_map r = some e →
      lookup (relays_state
          (index_handler_control s (some "all") (some "on") bus_w).1) r
        = some "on" := by
  intro r e hr
  have hmem := outputs_map_mem hr
  have hball : ((some "all" : Option String) == some "all") = true := by
    decide
  have hbon : ((some "on" : Option String) == some "on") = true := by decide
  have tb0 : Nat.testBit 1 0 = true := by decide
  have tb1 : Nat.testBit 2 1 = true := by decide
  have tb2 : Nat.testBit 4 2 = true := by decide
  have tb3 : Nat.testBit 8 3 = true := by decide
  have tb4 : Nat.testBit 16 4 = true := by decide
  have tb5 : Nat.testBit 32 5 = true := by decide
  have tb6 : Nat.testBit 64 6 = true := by decide
  have tb7 : Nat.testBit 128 7 = true := by decide
  have hen : outputs_map_list.enum =
      [(0, ("1", OutDev.o18, 0)),
       (1, ("2", OutDev.o18, 1)),
       (2, ("3", OutDev.o18, 2)),
       (3, ("4", OutDev.o18, 3)),
       (4, ("5", OutDev.o18, 4)),
       (5, ("6", OutDev.o18, 5)),
       (6, ("7", OutDev.o18, 6)),
       (7, ("8", OutDev.o18, 7)),
       (8, ("9", OutDev.o916, 0)),
       (9, ("10", OutDev.o916, 1)),
       (10, ("11", OutDev.o916, 2)),
       (11, ("12", OutDev.o916, 3)),
       (12, ("13", OutDev.o916, 4)),
       (13, ("14", OutDev.o916, 5)),
       (14, ("15", OutDev.o916, 6)),
       (15, ("16", OutDev.o916, 7))] := by decide
  rcases e with ⟨dev, pin⟩
  fin_cases hmem <;>
    (rw [relays_state_lookup _ _ _ _ hr]
     unfold index_handler_control
     simp [hball, hbon, hen, write_relay,
       SysState.setOut, SysState.outDev, write_pin_valid, h1, h2,
       Nat.testBit_or, tb0, tb1, tb2, tb3, tb4, tb5, tb6, tb7])

/-- C4: round-trip of a control write through the state report.  With the
target output expanders valid, `relay=3&state=on` makes the state query
report relay `"3"` as `"on"` (for any bus-write outcome, hence in
particular with no bus failure), and `relay=all&state=on` makes it
report every relay id `"1".."16"` as `"on"`. -/
theorem c4_control_state_roundtrip :
    (∀ (s : SysState) (bus_w : Nat → Bool), s.out1.is_valid = true →
      lookup (relays_state
          (index_handler_control s (some "3") (some "on") bus_w).1) "3"
        = some "on") ∧
    (∀ (s : SysState) (bus_w : Nat → Bool), s.out1.is_valid = true →
      s.out2.is_valid = true →
      ∀ (r : String) (e : OutDev × Nat), outputs_map r = some e →
        lookup (relays_state
            (index_handler_control s (some "all") (some "on") bus_w).1) r
          = some "on") :=
  ⟨apply_control_three_on, apply_control_all_on⟩

/-- C5: over the snapshot sequence `0xFF -> 0xFE -> 0xFE -> 0xFC` on the
first input expander, the edge-scan fires exactly one toggle write on the
relay mapped to bit 0 (relay `"1"`) at the `0xFF -> 0xFE` transition,
fires nothing on the repeated `0xFE` reading, and at the `0xFE -> 0xFC`
transition fires exactly one toggle write on the relay mapped to bit 1
(relay `"2"`) with no refire of relay `"1"`. -/
theorem c5_edge_trigger (s : SysState) (bus_w : Nat → Bool)
    (h : s.in1.is_valid = true) :
    ((scan_device_step s InDev.i18 0xFF (some 0xFE) bus_w).2.2.map
        ScanEvent.relay_id = ["1"]) ∧
    ((scan_device_step s InDev.i18 0xFF (some 0xFE) bus_w).2.1 = 0xFE) ∧
    ((scan_device_step
        (scan_device_step s InDev.i18 0xFF (some 0xFE) bus_w).1
        InDev.i18 0xFE (some 0xFE) bus_w).2.2 = []) ∧
    ((scan_device_step
        (scan_device_step s InDev.i18 0xFF (some 0xFE) bus_w).1
        InDev.i18 0xFE (some 0xFE) bus_w).2.1 = 0xFE) ∧
    ((scan_device_step
        (scan_device_step
            (scan_device_step s InDev.i18 0xFF (some 0xFE) bus_w).1
            InDev.i18 0xFE (some 0xFE) bus_w).1
        InDev.i18 0xFE (some 0xFC) bus_w).2.2.map ScanEvent.relay_id
      = ["2"]) := by
  have t1 : toString (1 : Nat) = "1" := by decide
  have t2 : toString (2 : Nat) = "2" := by decide
  have hom1 : outputs_map "1" = some (OutDev.o18, 0) := by decide
  have hom2 : outputs_map "2" = some (OutDev.o18, 1) := by decide
  have e1 : ((252 : Nat) &&& 2 : Nat) = 0 := by decide
  unfold scan_device_step
  simp [SysState.inDev, h, PCF8574.read_all, range8, InDev.addr,
    input_to_output_map, ADDR_INPUTS_1_8, ADDR_INPUTS_9_16,
    SysState.setIn, SysState.setOut, SysState.outDev, write_relay,
    t1, t2, hom1, hom2, e1, PCF8574.write_pin, PCF8574.write_all]

/-- C5 witness: the edge-trigger theorem at the all-valid fresh state
with all bus writes succeeding. -/
theorem c5_witness :
    ((scan_device_step demo_all_valid InDev.i18 0xFF (some 0xFE)
        (fun _ => true)).2.2.map ScanEvent.relay_id = ["1"]) ∧
    ((scan_device_step demo_all_valid InDev.i18 0xFF (some 0xFE)
        (fun _ => true)).2.1 = 0xFE) ∧
    ((scan_device_step
        (scan_device_step demo_all_valid InDev.i18 0xFF (some 0xFE)
          (fun _ => true)).1
        InDev.i18 0xFE (some 0xFE) (fun _ => true)).2.2 = []) ∧
    ((scan_device_step
        (scan_device_step demo_all_valid InDev.i18 0xFF (some 0xFE)
          (fun _ => true)).1
        InDev.i18 0xFE (some 0xFE) (fun _ => true)).2.1 = 0xFE) ∧
    ((scan_device_step
        (scan_device_step
            (scan_device_step demo_all_valid InDev.i18 0xFF (some 0xFE)
              (fun _ => true)).1
            InDev.i18 0xFE (some 0xFE) (fun _ => true)).1
        InDev.i18 0xFE (some 0xFC) (fun _ => true)).2.2.map
        ScanEvent.relay_id = ["2"]) :=
  c5_edge_trigger demo_all_valid (fun _ => true) rfl

end KC868
